import Mathlib

/-!
Shallow embedding of the XYK constant-product AMM runtime module
(`src/runtime/XYK.ts`) of the dex-runtime repository.

Token identifiers and balances are the runtime's non-negative integers,
modelled as `Nat` with truncating (floor) division, matching the exact
integer arithmetic of the source.  Addresses (public keys / pool keys)
are modelled as pairs of field elements.  The Poseidon hash primitives
from snarkyjs are external collaborators; the embedding is parameterised
over them via the `Crypto` structure, since only determinism and the
canonical-pair input matter for the properties at hand.
-/

abbrev Address := Nat × Nat

/-- The canonicalised token pair of `src/runtime/XYK.ts` (`class TokenPair`). -/
structure TokenPair where
  tokenInId : Nat
  tokenOutId : Nat
deriving DecidableEq, Repr

/-- `TokenPair.from`: keeps the pair as given when `tokenInId > tokenOutId`,
otherwise swaps, so the numerically larger identifier is stored first. -/
def TokenPair.«from» (tokenInId tokenOutId : Nat) : TokenPair :=
  if tokenInId > tokenOutId then
    { tokenInId := tokenInId, tokenOutId := tokenOutId }
  else
    { tokenInId := tokenOutId, tokenOutId := tokenInId }

/-- `TokenPair.toFields`: the field encoding of a token pair (its two
components in declaration order). -/
def TokenPair.toFields (p : TokenPair) : List Nat :=
  [p.tokenInId, p.tokenOutId]

/-- External Poseidon hash primitives (snarkyjs collaborators): `hash`
models `Poseidon.hash`, `hashToGroup` models `Poseidon.hashToGroup`
returning the `x` coordinate and the `x0` component of `y`. -/
structure Crypto where
  hash : List Nat → Nat
  hashToGroup : List Nat → Nat × Nat

/-- `LPTokenId.fromTokenIdPair`: Poseidon hash of the canonical pair's
field encoding, interpreted as a token id. -/
def LPTokenId.fromTokenIdPair (c : Crypto) (tokenInId tokenOutId : Nat) : Nat :=
  c.hash (TokenPair.toFields (TokenPair.«from» tokenInId tokenOutId))

/-- `PoolKey.fromTokenIdPair`: hash-to-group of the canonical pair's field
encoding; the resulting group element `(x, x0)` is the pool's account key. -/
def PoolKey.fromTokenIdPair (c : Crypto) (tokenInId tokenOutId : Nat) : Address :=
  let tokenPair := TokenPair.«from» tokenInId tokenOutId
  c.hashToGroup (TokenPair.toFields tokenPair)

/-- `calculateTokenOutAmountFromReserves`:
`numerator / denominator` with `numerator = tokenOutReserve * tokenInAmount`
and `denominator = tokenInReserve + tokenInAmount`, floor division. -/
def calculateTokenOutAmountFromReserves
    (tokenInReserve tokenOutReserve tokenInAmount : Nat) : Nat :=
  let numerator := tokenOutReserve * tokenInAmount
  let denominator := tokenInReserve + tokenInAmount
  numerator / denominator

/-- `calculateTokenInAmountFromReserves`, straight-line part: returns the
computed quotient together with the `denominatorIsSafe` flag that the
source passes to `assert`.  When the denominator is not positive the
divisor is replaced by `1` (the `safeDenominator` clamp) but the flag is
`false`. -/
def calculateTokenInAmountFromReservesRaw
    (tokenInReserve tokenOutReserve tokenOutAmount : Nat) : Nat × Bool :=
  let paddedTokenOutReserve := tokenOutReserve + tokenOutAmount
  let safeTokenOutReserve :=
    if tokenOutReserve ≥ tokenOutAmount then tokenOutReserve else paddedTokenOutReserve
  let numerator := tokenInReserve * tokenOutAmount
  let denominator := safeTokenOutReserve - tokenOutAmount
  let denominatorIsSafe : Bool := decide (denominator > 0)
  let safeDenominator := if denominatorIsSafe then denominator else 1
  (numerator / safeDenominator, denominatorIsSafe)

/-- `calculateTokenInAmountFromReserves` as a fallible call: the failed
`assert(denominatorIsSafe)` aborts the call, so the result is `none`
exactly when the flag is `false`. -/
def calculateTokenInAmountFromReserves
    (tokenInReserve tokenOutReserve tokenOutAmount : Nat) : Option Nat :=
  let r := calculateTokenInAmountFromReservesRaw tokenInReserve tokenOutReserve tokenOutAmount
  if r.2 then some r.1 else none

/-- The error strings of the `errors` object in `src/runtime/XYK.ts`. -/
def errors.poolExists : String := "Pool already exists"

/-- `errors.tokensMatch`. -/
def errors.tokensMatch : String := "Cannot create pool with matching tokens"

/-- `errors.tokenOutAmountTooLow`. -/
def errors.tokenOutAmountTooLow : String := "Token out amount too low"

/-- `errors.tokenInAmountTooHigh`. -/
def errors.tokenInAmountTooHigh : String := "Token in amount too high"

/-- Failure of a runtime call: a failed `assert` carrying its optional
message, or the ledger's insufficient-balance failure. -/
inductive XYKError where
  | assertionFailed (message : Option String)
  | insufficientBalance
deriving DecidableEq, Repr

/-- The state a runtime call reads and writes: the `pools` existence
marker map of the XYK module, and the balance mapping of the external
ledger (keyed by token id and account, zero when absent). -/
structure XYKState where
  pools : Address → Option Nat
  balances : Nat × Address → Nat

/-- Result of a runtime method: success with the new state, or failure
carrying the error and the state at the point of failure (the host
discards it, so a failed call leaves the pre-call state in force). -/
inductive ExecResult where
  | ok (s : XYKState)
  | err (e : XYKError) (s : XYKState)

/-- Modelled from the spec: the external Ledger's `getBalance`
(`Balances.ts` is not part of the given sources) — current non-negative
balance, zero if none recorded. -/
def getBalance (s : XYKState) (tokenId : Nat) (a : Address) : Nat :=
  s.balances (tokenId, a)

/-- Nat map update used by the ledger operations. -/
def setBalance (s : XYKState) (tokenId : Nat) (a : Address) (v : Nat) : XYKState :=
  { s with balances := Function.update s.balances (tokenId, a) v }

/-- Modelled from the spec: the external Ledger's `transfer` — fails with
InsufficientBalance when the source balance is below `amount`, otherwise
atomically debits the source and credits the destination. -/
def transfer (s : XYKState) (tokenId : Nat) (source target : Address)
    (amount : Nat) : Except XYKError XYKState :=
  let sourceBalance := getBalance s tokenId source
  if sourceBalance < amount then
    Except.error XYKError.insufficientBalance
  else
    let s1 := setBalance s tokenId source (sourceBalance - amount)
    Except.ok (setBalance s1 tokenId target (getBalance s1 tokenId target + amount))

/-- Modelled from the spec: the external Ledger's `mint` — atomically
credits the destination, always succeeds. -/
def mint (s : XYKState) (tokenId : Nat) (target : Address) (amount : Nat) : XYKState :=
  setBalance s tokenId target (getBalance s tokenId target + amount)

/-- `XYK.defaultPoolValue = Field(0)`, the sentinel stored as existence
marker. -/
def XYK.defaultPoolValue : Nat := 0

/-- The `pools.set` operation of the existence store: inserts (or
overwrites) the marker for a pool key. -/
def setPool (s : XYKState) (key : Address) (v : Nat) : XYKState :=
  { s with pools := Function.update s.pools key (some v) }

/-- `XYK.poolExists`: the pool key derived from the pair has an entry in
the `pools` state map. -/
def XYK.poolExists (c : Crypto) (s : XYKState) (tokenInId tokenOutId : Nat) : Bool :=
  let key := PoolKey.fromTokenIdPair c tokenInId tokenOutId
  (s.pools key).isSome

/-- `XYK.createPool`: asserts the token ids differ, asserts the pool does
not yet exist, inserts the existence marker, transfers both seed amounts
from the caller to the pool account, and mints `tokenInAmount` LP tokens
to the caller. -/
def XYK.createPool (c : Crypto) (sender : Address) (s : XYKState)
    (tokenInId tokenOutId : Nat) (tokenInAmount tokenOutAmount : Nat) : ExecResult :=
  if tokenInId = tokenOutId then
    ExecResult.err (XYKError.assertionFailed (some errors.tokensMatch)) s
  else if XYK.poolExists c s tokenInId tokenOutId then
    ExecResult.err (XYKError.assertionFailed (some errors.poolExists)) s
  else
    let key := PoolKey.fromTokenIdPair c tokenInId tokenOutId
    let s1 := setPool s key XYK.defaultPoolValue
    match transfer s1 tokenInId sender key tokenInAmount with
    | Except.error e => ExecResult.err e s1
    | Except.ok s2 =>
      match transfer s2 tokenOutId sender key tokenOutAmount with
      | Except.error e => ExecResult.err e s2
      | Except.ok s3 =>
        ExecResult.ok (mint s3 (LPTokenId.fromTokenIdPair c tokenInId tokenOutId) sender tokenInAmount)

/-- `XYK.calculateTokenOutAmount`: reads the pool's reserves from the
ledger and applies `calculateTokenOutAmountFromReserves`. -/
def XYK.calculateTokenOutAmount (c : Crypto) (s : XYKState)
    (tokenInId tokenOutId : Nat) (tokenInAmount : Nat) : Nat :=
  let pool := PoolKey.fromTokenIdPair c tokenInId tokenOutId
  let tokenInReserve := getBalance s tokenInId pool
  let tokenOutReserve := getBalance s tokenOutId pool
  calculateTokenOutAmountFromReserves tokenInReserve tokenOutReserve tokenInAmount

/-- `XYK.calculateTokenInAmount`: reads the pool's reserves from the
ledger and applies `calculateTokenInAmountFromReserves`. -/
def XYK.calculateTokenInAmount (c : Crypto) (s : XYKState)
    (tokenInId tokenOutId : Nat) (tokenOutAmount : Nat) : Option Nat :=
  let pool := PoolKey.fromTokenIdPair c tokenInId tokenOutId
  let tokenInReserve := getBalance s tokenInId pool
  let tokenOutReserve := getBalance s tokenOutId pool
  calculateTokenInAmountFromReserves tokenInReserve tokenOutReserve tokenOutAmount

/-- `XYK.sell`: `assertPoolExists` (whose failure carries the
`errors.poolExists` message, as in the source), slippage check against
`minTokenOutAmount`, then the two transfers. -/
def XYK.sell (c : Crypto) (sender : Address) (s : XYKState)
    (tokenInId tokenOutId : Nat) (tokenInAmount minTokenOutAmount : Nat) : ExecResult :=
  if ¬ XYK.poolExists c s tokenInId tokenOutId then
    ExecResult.err (XYKError.assertionFailed (some errors.poolExists)) s
  else
    let pool := PoolKey.fromTokenIdPair c tokenInId tokenOutId
    let tokenOutAmount := XYK.calculateTokenOutAmount c s tokenInId tokenOutId tokenInAmount
    if tokenOutAmount < minTokenOutAmount then
      ExecResult.err (XYKError.assertionFailed (some errors.tokenOutAmountTooLow)) s
    else
      match transfer s tokenInId sender pool tokenInAmount with
      | Except.error e => ExecResult.err e s
      | Except.ok s1 =>
        match transfer s1 tokenOutId pool sender tokenOutAmount with
        | Except.error e => ExecResult.err e s1
        | Except.ok s2 => ExecResult.ok s2

/-- `XYK.buy`: `assertPoolExists` (failure carries the
`errors.poolExists` message, as in the source), the in-amount computation
whose internal `assert(denominatorIsSafe)` can abort the call with a
message-less assertion failure, slippage check against
`maxTokenInAmount`, then the two transfers. -/
def XYK.buy (c : Crypto) (sender : Address) (s : XYKState)
    (tokenInId tokenOutId : Nat) (tokenOutAmount maxTokenInAmount : Nat) : ExecResult :=
  if ¬ XYK.poolExists c s tokenInId tokenOutId then
    ExecResult.err (XYKError.assertionFailed (some errors.poolExists)) s
  else
    let pool := PoolKey.fromTokenIdPair c tokenInId tokenOutId
    match XYK.calculateTokenInAmount c s tokenInId tokenOutId tokenOutAmount with
    | none => ExecResult.err (XYKError.assertionFailed none) s
    | some tokenInAmount =>
      if maxTokenInAmount < tokenInAmount then
        ExecResult.err (XYKError.assertionFailed (some errors.tokenInAmountTooHigh)) s
      else
        match transfer s tokenOutId pool sender tokenOutAmount with
        | Except.error e => ExecResult.err e s
        | Except.ok s1 =>
          match transfer s1 tokenInId sender pool tokenInAmount with
          | Except.error e => ExecResult.err e s1
          | Except.ok s2 => ExecResult.ok s2

/-! ## Helper lemmas -/

lemma TokenPair.from_comm (a b : Nat) :
    TokenPair.«from» a b = TokenPair.«from» b a := by
  unfold TokenPair.«from»
  split_ifs <;> first
    | rfl
    | (simp only [TokenPair.mk.injEq]; omega)

lemma poolKey_fromTokenIdPair_comm (c : Crypto) (a b : Nat) :
    PoolKey.fromTokenIdPair c a b = PoolKey.fromTokenIdPair c b a := by
  unfold PoolKey.fromTokenIdPair
  rw [TokenPair.from_comm]

lemma lpTokenId_fromTokenIdPair_comm (c : Crypto) (a b : Nat) :
    LPTokenId.fromTokenIdPair c a b = LPTokenId.fromTokenIdPair c b a := by
  unfold LPTokenId.fromTokenIdPair
  rw [TokenPair.from_comm]

/-- Closed form of the straight-line in-amount computation: the three
regimes (sufficient reserve, padded reserve with positive denominator,
zero denominator with the divisor clamped to `1`). -/
lemma calculateTokenInAmountFromReservesRaw_eq (rIn rOut aOut : Nat) :
    calculateTokenInAmountFromReservesRaw rIn rOut aOut =
      if aOut < rOut then (rIn * aOut / (rOut - aOut), true)
      else if 0 < rOut ∧ rOut < aOut then (rIn * aOut / rOut, true)
      else (rIn * aOut, false) := by
  simp only [calculateTokenInAmountFromReservesRaw]
  by_cases h1 : rOut ≥ aOut
  · by_cases h2 : aOut < rOut
    · have hd : 0 < rOut - aOut := by omega
      simp [h1, h2, hd]
    · have heq : aOut = rOut := by omega
      subst heq
      simp
  · have h2 : ¬ aOut < rOut := by omega
    have hd : rOut + aOut - aOut = rOut := Nat.add_sub_cancel rOut aOut
    by_cases h3 : 0 < rOut
    · simp [h1, h2, hd, h3, (show rOut < aOut by omega)]
    · have h0 : rOut = 0 := by omega
      subst h0
      simp [h1, h2]

/-- Closed form of the fallible in-amount call. -/
lemma calculateTokenInAmountFromReserves_eq (rIn rOut aOut : Nat) :
    calculateTokenInAmountFromReserves rIn rOut aOut =
      if aOut < rOut then some (rIn * aOut / (rOut - aOut))
      else if 0 < rOut ∧ rOut < aOut then some (rIn * aOut / rOut)
      else none := by
  unfold calculateTokenInAmountFromReserves
  rw [calculateTokenInAmountFromReservesRaw_eq]
  split_ifs <;> simp

/-- The out-amount formula is monotone in the input amount. -/
lemma calculateTokenOutAmountFromReserves_mono (rIn rOut : Nat) {a1 a2 : Nat}
    (h : a1 ≤ a2) :
    calculateTokenOutAmountFromReserves rIn rOut a1 ≤
      calculateTokenOutAmountFromReserves rIn rOut a2 := by
  simp only [calculateTokenOutAmountFromReserves]
  rcases Nat.eq_zero_or_pos a1 with h0 | h0
  · subst h0; simp
  · have hd2 : 0 < rIn + a2 := by omega
    have hqle : rOut * a1 / (rIn + a1) * (rIn + a1) ≤ rOut * a1 := Nat.div_mul_le_self _ _
    have hqr : rOut * a1 / (rIn + a1) ≤ rOut := by
      have hstep : rOut * a1 / (rIn + a1) ≤ rOut * a1 / a1 :=
        Nat.div_le_div_left (Nat.le_add_left a1 rIn) h0
      rw [Nat.mul_div_cancel rOut h0] at hstep
      exact hstep
    rw [Nat.le_div_iff_mul_le hd2]
    have hsplit : rIn + a2 = (rIn + a1) + (a2 - a1) := by omega
    have hbound : rOut * a1 / (rIn + a1) * (rIn + a2) ≤ rOut * a1 + rOut * (a2 - a1) := by
      rw [hsplit, Nat.mul_add]
      exact Nat.add_le_add hqle (Nat.mul_le_mul_right _ hqr)
    have hmerge : rOut * a1 + rOut * (a2 - a1) = rOut * a2 := by
      rw [← Nat.mul_add]
      congr 1
      omega
    exact le_trans hbound (le_of_eq hmerge)

/-- The in-amount formula is monotone in the requested output amount in
the sufficient-liquidity regime. -/
lemma calculateTokenInAmount_formula_mono (rIn : Nat) {rOut a1 a2 : Nat}
    (h12 : a1 ≤ a2) (h2 : a2 < rOut) :
    rIn * a1 / (rOut - a1) ≤ rIn * a2 / (rOut - a2) := by
  calc rIn * a1 / (rOut - a1) ≤ rIn * a2 / (rOut - a1) :=
        Nat.div_le_div_right (Nat.mul_le_mul_left rIn h12)
    _ ≤ rIn * a2 / (rOut - a2) := Nat.div_le_div_left (by omega) (by omega)

lemma getBalance_setBalance (s : XYKState) (t : Nat) (a : Address) (v : Nat)
    (t' : Nat) (a' : Address) :
    getBalance (setBalance s t a v) t' a' =
      if (t', a') = (t, a) then v else getBalance s t' a' := by
  simp [getBalance, setBalance, Function.update_apply]

lemma getBalance_mk_pools (s : XYKState) (p : Address → Option Nat) (t : Nat) (a : Address) :
    getBalance { s with pools := p } t a = getBalance s t a := rfl

lemma setBalance_pools (s : XYKState) (t : Nat) (a : Address) (v : Nat) :
    (setBalance s t a v).pools = s.pools := rfl

lemma mint_pools (s : XYKState) (t : Nat) (a : Address) (amt : Nat) :
    (mint s t a amt).pools = s.pools := rfl

lemma getBalance_mint (s : XYKState) (t : Nat) (a : Address) (amt : Nat)
    (t' : Nat) (a' : Address) :
    getBalance (mint s t a amt) t' a' =
      if (t', a') = (t, a) then getBalance s t a + amt else getBalance s t' a' := by
  simp only [mint, getBalance_setBalance]

lemma transfer_ok_pools {s s' : XYKState} {t : Nat} {x y : Address} {amt : Nat}
    (h : transfer s t x y amt = Except.ok s') : s'.pools = s.pools := by
  simp only [transfer] at h
  split_ifs at h
  injection h with h
  subst h
  rfl

/-- Effect of a successful ledger transfer between distinct accounts. -/
lemma transfer_ok_spec {s s' : XYKState} {t : Nat} {x y : Address} {amt : Nat}
    (hxy : x ≠ y) (h : transfer s t x y amt = Except.ok s') :
    amt ≤ getBalance s t x ∧
    getBalance s' t x = getBalance s t x - amt ∧
    getBalance s' t y = getBalance s t y + amt ∧
    (∀ t' a', (t', a') ≠ (t, x) → (t', a') ≠ (t, y) →
      getBalance s' t' a' = getBalance s t' a') := by
  simp only [transfer] at h
  split_ifs at h with hlt
  injection h with h
  subst h
  refine ⟨Nat.le_of_not_lt hlt, ?_, ?_, ?_⟩
  · simp [getBalance_setBalance, Prod.mk.injEq, hxy]
  · simp [getBalance_setBalance, Prod.mk.injEq, Ne.symm hxy]
  · intro t' a' h1 h2
    simp [getBalance_setBalance, h1, h2]

/-- Decomposition of a successful `createPool` run into its parts. -/
lemma createPool_ok_parts {c : Crypto} {sender : Address} {s : XYKState}
    {a b x y : Nat} {s' : XYKState}
    (h : XYK.createPool c sender s a b x y = ExecResult.ok s') :
    a ≠ b ∧ XYK.poolExists c s a b = false ∧
    ∃ s2 s3,
      transfer (setPool s (PoolKey.fromTokenIdPair c a b) XYK.defaultPoolValue)
        a sender (PoolKey.fromTokenIdPair c a b) x = Except.ok s2 ∧
      transfer s2 b sender (PoolKey.fromTokenIdPair c a b) y = Except.ok s3 ∧
      s' = mint s3 (LPTokenId.fromTokenIdPair c a b) sender x := by
  simp only [XYK.createPool] at h
  split_ifs at h with h1 h2
  refine ⟨h1, by simp [h2], ?_⟩
  cases hE1 : transfer (setPool s (PoolKey.fromTokenIdPair c a b) XYK.defaultPoolValue)
      a sender (PoolKey.fromTokenIdPair c a b) x with
  | error e => simp only [hE1] at h; exact (ExecResult.noConfusion h)
  | ok s2 =>
    simp only [hE1] at h
    cases hE2 : transfer s2 b sender (PoolKey.fromTokenIdPair c a b) y with
    | error e => simp only [hE2] at h; exact (ExecResult.noConfusion h)
    | ok s3 =>
      simp only [hE2] at h
      injection h with h
      exact ⟨s2, s3, by simp [hE1], by simp [hE2], h.symm⟩

/-- The pools map after a successful `createPool`. -/
lemma createPool_ok_pools {c : Crypto} {sender : Address} {s : XYKState}
    {a b x y : Nat} {s' : XYKState}
    (h : XYK.createPool c sender s a b x y = ExecResult.ok s') :
    a ≠ b ∧ s'.pools = Function.update s.pools
      (PoolKey.fromTokenIdPair c a b) (some XYK.defaultPoolValue) := by
  obtain ⟨hab, -, s2, s3, hT1, hT2, hS⟩ := createPool_ok_parts h
  refine ⟨hab, ?_⟩
  rw [hS, mint_pools, transfer_ok_pools hT2, transfer_ok_pools hT1]
  rfl

/-! ## Claims -/

/-- Shared fixtures for concrete witnesses. -/
def cryptoZero : Crypto := ⟨fun _ => 0, fun _ => (0, 0)⟩

/-- The empty runtime state: no pools, all balances zero. -/
def emptyState : XYKState := ⟨fun _ => none, fun _ => 0⟩

/-- C1: identity derivation is direction-independent: for distinct token
identifiers `a`, `b`, `TokenPair.from`, `PoolKey.fromTokenIdPair` and
`LPTokenId.fromTokenIdPair` give the same result for both argument
orders. -/
theorem identity_derivation_direction_independent (c : Crypto) (a b : Nat)
    (h : a ≠ b) :
    TokenPair.«from» a b = TokenPair.«from» b a ∧
    PoolKey.fromTokenIdPair c a b = PoolKey.fromTokenIdPair c b a ∧
    LPTokenId.fromTokenIdPair c a b = LPTokenId.fromTokenIdPair c b a :=
  ⟨TokenPair.from_comm a b, poolKey_fromTokenIdPair_comm c a b,
    lpTokenId_fromTokenIdPair_comm c a b⟩

/-- Witness for C1 at the concrete pair (0, 1). -/
theorem identity_derivation_direction_independent_witness :
    TokenPair.«from» 0 1 = TokenPair.«from» 1 0 ∧
    PoolKey.fromTokenIdPair cryptoZero 0 1 = PoolKey.fromTokenIdPair cryptoZero 1 0 ∧
    LPTokenId.fromTokenIdPair cryptoZero 0 1 = LPTokenId.fromTokenIdPair cryptoZero 1 0 :=
  identity_derivation_direction_independent cryptoZero 0 1 (by decide)

/-- C2: for a positive denominator, `calculateTokenOutAmountFromReserves`
returns exactly the floor of `(reserveOut * amountIn) / (reserveIn +
amountIn)`, characterised by the two floor inequalities. -/
theorem calculateTokenOutAmountFromReserves_floor
    (tokenInReserve tokenOutReserve tokenInAmount : Nat)
    (h : 0 < tokenInReserve + tokenInAmount) :
    calculateTokenOutAmountFromReserves tokenInReserve tokenOutReserve tokenInAmount *
        (tokenInReserve + tokenInAmount) ≤ tokenOutReserve * tokenInAmount ∧
    tokenOutReserve * tokenInAmount <
      (calculateTokenOutAmountFromReserves tokenInReserve tokenOutReserve tokenInAmount + 1) *
        (tokenInReserve + tokenInAmount) :=
  ⟨Nat.div_mul_le_self _ _, (Nat.div_lt_iff_lt_mul h).1 (Nat.lt_succ_self _)⟩

/-- Witness for C2 on the reference fixture (reserves 1000/2000, input
100, output 181). -/
theorem calculateTokenOutAmountFromReserves_floor_witness :
    calculateTokenOutAmountFromReserves 1000 2000 100 * (1000 + 100) ≤ 2000 * 100 ∧
    2000 * 100 < (calculateTokenOutAmountFromReserves 1000 2000 100 + 1) * (1000 + 100) :=
  calculateTokenOutAmountFromReserves_floor 1000 2000 100 (by decide)

/-- C3: in the sufficient-liquidity regime (`amountOut < reserveOut`) the
in-amount call returns `floor(reserveIn*amountOut / (reserveOut -
amountOut))`; in the insufficient-liquidity regime the padded reserve
makes the denominator `reserveOut`, so (for positive `reserveOut`) it
returns `floor(reserveIn*amountOut / reserveOut)`. -/
theorem calculateTokenInAmountFromReserves_branch_formulas
    (tokenInReserve tokenOutReserve tokenOutAmount : Nat) :
    (tokenOutAmount < tokenOutReserve →
      calculateTokenInAmountFromReserves tokenInReserve tokenOutReserve tokenOutAmount =
        some (tokenInReserve * tokenOutAmount / (tokenOutReserve - tokenOutAmount))) ∧
    (tokenOutReserve < tokenOutAmount → 0 < tokenOutReserve →
      calculateTokenInAmountFromReserves tokenInReserve tokenOutReserve tokenOutAmount =
        some (tokenInReserve * tokenOutAmount / tokenOutReserve)) := by
  rw [calculateTokenInAmountFromReserves_eq]
  constructor
  · intro h
    rw [if_pos h]
  · intro h h0
    rw [if_neg (show ¬ tokenOutAmount < tokenOutReserve by omega), if_pos ⟨h0, h⟩]

/-- Witness for C3: both regimes at concrete inputs. -/
theorem calculateTokenInAmountFromReserves_branch_formulas_witness :
    calculateTokenInAmountFromReserves 1 3 2 = some (1 * 2 / (3 - 2)) ∧
    calculateTokenInAmountFromReserves 1 2 5 = some (1 * 5 / 2) :=
  ⟨(calculateTokenInAmountFromReserves_branch_formulas 1 3 2).1 (by decide),
    (calculateTokenInAmountFromReserves_branch_formulas 1 2 5).2 (by decide) (by decide)⟩

/-- C4: the in-amount call fails exactly when `amountOut = reserveOut` or
`reserveOut = 0`; in that case the straight-line computation used divisor
`1` (its value is `reserveIn * amountOut`) while the call fails. -/
theorem calculateTokenInAmountFromReserves_failure_iff
    (tokenInReserve tokenOutReserve tokenOutAmount : Nat) :
    (calculateTokenInAmountFromReserves tokenInReserve tokenOutReserve tokenOutAmount = none ↔
      (tokenOutAmount = tokenOutReserve ∨ tokenOutReserve = 0)) ∧
    (calculateTokenInAmountFromReserves tokenInReserve tokenOutReserve tokenOutAmount = none →
      calculateTokenInAmountFromReservesRaw tokenInReserve tokenOutReserve tokenOutAmount =
        (tokenInReserve * tokenOutAmount, false)) := by
  rw [calculateTokenInAmountFromReserves_eq, calculateTokenInAmountFromReservesRaw_eq]
  constructor
  · constructor
    · intro h
      by_cases h1 : tokenOutAmount < tokenOutReserve
      · rw [if_pos h1] at h; exact absurd h (by simp)
      · by_cases h2 : 0 < tokenOutReserve ∧ tokenOutReserve < tokenOutAmount
        · rw [if_neg h1, if_pos h2] at h; exact absurd h (by simp)
        · omega
    · intro h
      rw [if_neg (show ¬ tokenOutAmount < tokenOutReserve by omega),
        if_neg (show ¬ (0 < tokenOutReserve ∧ tokenOutReserve < tokenOutAmount) by omega)]
  · intro h
    by_cases h1 : tokenOutAmount < tokenOutReserve
    · rw [if_pos h1] at h; exact absurd h (by simp)
    · by_cases h2 : 0 < tokenOutReserve ∧ tokenOutReserve < tokenOutAmount
      · rw [if_neg h1, if_pos h2] at h; exact absurd h (by simp)
      · rw [if_neg h1, if_neg h2]

/-- Witness for C4 at reserveOut = 0, amountOut = 3, reserveIn = 2. -/
theorem calculateTokenInAmountFromReserves_failure_iff_witness :
    calculateTokenInAmountFromReserves 2 0 3 = none ∧
    calculateTokenInAmountFromReservesRaw 2 0 3 = (2 * 3, false) :=
  ⟨(calculateTokenInAmountFromReserves_failure_iff 2 0 3).1.mpr (Or.inr rfl),
    (calculateTokenInAmountFromReserves_failure_iff 2 0 3).2
      ((calculateTokenInAmountFromReserves_failure_iff 2 0 3).1.mpr (Or.inr rfl))⟩

/-- C9 counterexample: `calculateTokenInAmountFromReserves` is not
non-decreasing over all amounts on which it succeeds — at reserves
(3, 3), requesting 2 costs 6 while requesting 4 costs only 4. -/
theorem tokenInAmount_monotonicity_counterexample :
    ¬ (∀ rIn rOut a1 a2 v1 v2 : Nat, a1 ≤ a2 →
        calculateTokenInAmountFromReserves rIn rOut a1 = some v1 →
        calculateTokenInAmountFromReserves rIn rOut a2 = some v2 → v1 ≤ v2) := by
  intro h
  have := h 3 3 2 4 6 4 (by decide) (by decide) (by decide)
  omega

/-- C9 amended: for fixed reserves the out-amount is non-decreasing in
the input amount, and the in-amount is non-decreasing in the requested
output amount within the sufficient-liquidity regime
(`amountOut < reserveOut`); across the insufficient-liquidity boundary
monotonicity fails. -/
theorem swap_monotonicity_amended :
    (∀ rIn rOut a1 a2 : Nat, a1 ≤ a2 →
      calculateTokenOutAmountFromReserves rIn rOut a1 ≤
        calculateTokenOutAmountFromReserves rIn rOut a2) ∧
    (∀ rIn rOut a1 a2 v1 v2 : Nat, a1 ≤ a2 → a2 < rOut →
      calculateTokenInAmountFromReserves rIn rOut a1 = some v1 →
      calculateTokenInAmountFromReserves rIn rOut a2 = some v2 → v1 ≤ v2) := by
  constructor
  · intro rIn rOut a1 a2 h
    exact calculateTokenOutAmountFromReserves_mono rIn rOut h
  · intro rIn rOut a1 a2 v1 v2 h12 h2 hv1 hv2
    rw [calculateTokenInAmountFromReserves_eq,
      if_pos (show a1 < rOut by omega)] at hv1
    rw [calculateTokenInAmountFromReserves_eq, if_pos h2] at hv2
    cases hv1
    cases hv2
    exact calculateTokenInAmount_formula_mono rIn h12 h2

/-- Witness for C9 amended: concrete monotone instances in both parts. -/
theorem swap_monotonicity_amended_witness :
    calculateTokenOutAmountFromReserves 1000 2000 50 ≤
      calculateTokenOutAmountFromReserves 1000 2000 100 ∧
    (2 : Nat) ≤ 8 :=
  ⟨swap_monotonicity_amended.1 1000 2000 50 100 (by decide),
    swap_monotonicity_amended.2 8 10 2 5 2 8 (by decide) (by decide)
      (by decide) (by decide)⟩

/-- C10: with a zero tokenIn reserve, any positive input amount buys the
entire tokenOut reserve: `calculateTokenOutAmountFromReserves 0 r a = r`
for `a > 0`. -/
theorem zero_tokenInReserve_drains_pool (tokenOutReserve tokenInAmount : Nat)
    (h : 0 < tokenInAmount) :
    calculateTokenOutAmountFromReserves 0 tokenOutReserve tokenInAmount = tokenOutReserve := by
  unfold calculateTokenOutAmountFromReserves
  rw [Nat.zero_add, Nat.mul_div_cancel _ h]

/-- Witness for C10 at reserveOut = 5, amountIn = 3. -/
theorem zero_tokenInReserve_drains_pool_witness :
    calculateTokenOutAmountFromReserves 0 5 3 = 5 :=
  zero_tokenInReserve_drains_pool 5 3 (by decide)

/-- Balances are untouched by the existence-store update. -/
lemma getBalance_setPool (s : XYKState) (k : Address) (v : Nat) (t : Nat) (a : Address) :
    getBalance (setPool s k v) t a = getBalance s t a := rfl

/-- C5: a successful `createPool` inserts the existence marker for the
derived pool key, moves the two seed amounts from the caller to the pool
account, and mints exactly `tokenInAmount` LP tokens to the caller
(the tokenIn seed amount, not a geometric mean).  The inequations
`sender ≠ poolKey` and `lpTokenId ∉ {tokenInId, tokenOutId}` are the
cryptographic no-collision assumptions. -/
theorem createPool_success_effects (c : Crypto) (sender : Address) (s : XYKState)
    (tokenInId tokenOutId x y : Nat) (s' : XYKState)
    (h : XYK.createPool c sender s tokenInId tokenOutId x y = ExecResult.ok s')
    (hsp : sender ≠ PoolKey.fromTokenIdPair c tokenInId tokenOutId)
    (hlp1 : LPTokenId.fromTokenIdPair c tokenInId tokenOutId ≠ tokenInId)
    (hlp2 : LPTokenId.fromTokenIdPair c tokenInId tokenOutId ≠ tokenOutId) :
    s'.pools (PoolKey.fromTokenIdPair c tokenInId tokenOutId) = some XYK.defaultPoolValue ∧
    getBalance s' tokenInId sender + x = getBalance s tokenInId sender ∧
    getBalance s' tokenInId (PoolKey.fromTokenIdPair c tokenInId tokenOutId) =
      getBalance s tokenInId (PoolKey.fromTokenIdPair c tokenInId tokenOutId) + x ∧
    getBalance s' tokenOutId sender + y = getBalance s tokenOutId sender ∧
    getBalance s' tokenOutId (PoolKey.fromTokenIdPair c tokenInId tokenOutId) =
      getBalance s tokenOutId (PoolKey.fromTokenIdPair c tokenInId tokenOutId) + y ∧
    getBalance s' (LPTokenId.fromTokenIdPair c tokenInId tokenOutId) sender =
      getBalance s (LPTokenId.fromTokenIdPair c tokenInId tokenOutId) sender + x := by
  obtain ⟨hab, -, s2, s3, hT1, hT2, hS⟩ := createPool_ok_parts h
  have hpools := (createPool_ok_pools h).2
  obtain ⟨hx, hT1a, hT1b, hT1c⟩ := transfer_ok_spec hsp hT1
  obtain ⟨hy, hT2a, hT2b, hT2c⟩ := transfer_ok_spec hsp hT2
  simp only [getBalance_setPool] at hx hT1a hT1b hT1c
  refine ⟨?_, ?_, ?_, ?_, ?_, ?_⟩
  · rw [hpools]
    exact Function.update_same _ _ _
  · have e1 : getBalance s' tokenInId sender = getBalance s3 tokenInId sender := by
      rw [hS, getBalance_mint, if_neg (by simp [Ne.symm hlp1])]
    have e2 : getBalance s3 tokenInId sender = getBalance s2 tokenInId sender :=
      hT2c tokenInId sender (by simp [hab]) (by simp [hab])
    omega
  · have e1 : getBalance s' tokenInId (PoolKey.fromTokenIdPair c tokenInId tokenOutId) =
        getBalance s3 tokenInId (PoolKey.fromTokenIdPair c tokenInId tokenOutId) := by
      rw [hS, getBalance_mint, if_neg (by simp [Ne.symm hlp1])]
    have e2 : getBalance s3 tokenInId (PoolKey.fromTokenIdPair c tokenInId tokenOutId) =
        getBalance s2 tokenInId (PoolKey.fromTokenIdPair c tokenInId tokenOutId) :=
      hT2c tokenInId _ (by simp [hab]) (by simp [hab])
    omega
  · have e1 : getBalance s' tokenOutId sender = getBalance s3 tokenOutId sender := by
      rw [hS, getBalance_mint, if_neg (by simp [Ne.symm hlp2])]
    have e2 : getBalance s2 tokenOutId sender = getBalance s tokenOutId sender :=
      hT1c tokenOutId sender (by simp [Ne.symm hab]) (by simp [Ne.symm hab])
    omega
  · have e1 : getBalance s' tokenOutId (PoolKey.fromTokenIdPair c tokenInId tokenOutId) =
        getBalance s3 tokenOutId (PoolKey.fromTokenIdPair c tokenInId tokenOutId) := by
      rw [hS, getBalance_mint, if_neg (by simp [Ne.symm hlp2])]
    have e2 : getBalance s2 tokenOutId (PoolKey.fromTokenIdPair c tokenInId tokenOutId) =
        getBalance s tokenOutId (PoolKey.fromTokenIdPair c tokenInId tokenOutId) :=
      hT1c tokenOutId _ (by simp [Ne.symm hab]) (by simp [Ne.symm hab])
    omega
  · have e1 : getBalance s' (LPTokenId.fromTokenIdPair c tokenInId tokenOutId) sender =
        getBalance s3 (LPTokenId.fromTokenIdPair c tokenInId tokenOutId) sender + x := by
      rw [hS, getBalance_mint, if_pos rfl]
    have e2 : getBalance s3 (LPTokenId.fromTokenIdPair c tokenInId tokenOutId) sender =
        getBalance s2 (LPTokenId.fromTokenIdPair c tokenInId tokenOutId) sender :=
      hT2c _ sender (by simp [hlp2]) (by simp [hlp2])
    have e3 : getBalance s2 (LPTokenId.fromTokenIdPair c tokenInId tokenOutId) sender =
        getBalance s (LPTokenId.fromTokenIdPair c tokenInId tokenOutId) sender :=
      hT1c _ sender (by simp [hlp1]) (by simp [hlp1])
    omega

/-- C6: `createPool` with identical tokens always fails with the
`tokensMatch` error; after one successful creation, creation for either
ordering of the pair fails with the `poolExists` error. -/
theorem createPool_identical_and_duplicate (c : Crypto) :
    (∀ (sender : Address) (s : XYKState) (a x y : Nat),
      XYK.createPool c sender s a a x y =
        ExecResult.err (XYKError.assertionFailed (some errors.tokensMatch)) s) ∧
    (∀ (sender : Address) (s : XYKState) (a b x y : Nat) (s' : XYKState),
      XYK.createPool c sender s a b x y = ExecResult.ok s' →
      ∀ (sender2 : Address) (x2 y2 : Nat),
        XYK.createPool c sender2 s' a b x2 y2 =
          ExecResult.err (XYKError.assertionFailed (some errors.poolExists)) s' ∧
        XYK.createPool c sender2 s' b a x2 y2 =
          ExecResult.err (XYKError.assertionFailed (some errors.poolExists)) s') := by
  constructor
  · intro sender s a x y
    simp [XYK.createPool]
  · intro sender s a b x y s' h sender2 x2 y2
    obtain ⟨hab, hpools⟩ := createPool_ok_pools h
    have hex1 : XYK.poolExists c s' a b = true := by
      simp [XYK.poolExists, hpools, Function.update_same]
    have hex2 : XYK.poolExists c s' b a = true := by
      simp [XYK.poolExists, poolKey_fromTokenIdPair_comm c b a, hpools,
        Function.update_same]
    constructor
    · simp [XYK.createPool, hab, hex1]
    · simp [XYK.createPool, Ne.symm hab, hex2]

/-- C7 evidence: on a state with no pools, both `sell` and `buy` fail, but
the reported error is the `errors.poolExists` message ("Pool already
exists") — the source's `assertPoolExists` reuses that message, so no
distinct PoolDoesNotExist error kind is observable. -/
theorem missing_pool_failure_reports_poolExists_message :
    XYK.sell cryptoZero (1, 1) emptyState 0 1 10 0 =
      ExecResult.err (XYKError.assertionFailed (some errors.poolExists)) emptyState ∧
    XYK.buy cryptoZero (1, 1) emptyState 0 1 10 10000 =
      ExecResult.err (XYKError.assertionFailed (some errors.poolExists)) emptyState :=
  ⟨rfl, rfl⟩

/-- C8: with an existing pool, a `sell` whose computed output falls short
of `minTokenOutAmount` fails with the `tokenOutAmountTooLow` error and
carries the unchanged pre-call state (the slippage assert precedes both
transfers), and a `buy` whose computed input exceeds `maxTokenInAmount`
fails with the `tokenInAmountTooHigh` error, state unchanged. -/
theorem slippage_failure_keeps_state (c : Crypto) (sender : Address) (s : XYKState)
    (tokenInId tokenOutId : Nat)
    (hpool : XYK.poolExists c s tokenInId tokenOutId = true) :
    (∀ tokenInAmount minTokenOutAmount : Nat,
      XYK.calculateTokenOutAmount c s tokenInId tokenOutId tokenInAmount < minTokenOutAmount →
      XYK.sell c sender s tokenInId tokenOutId tokenInAmount minTokenOutAmount =
        ExecResult.err (XYKError.assertionFailed (some errors.tokenOutAmountTooLow)) s) ∧
    (∀ tokenOutAmount maxTokenInAmount v : Nat,
      XYK.calculateTokenInAmount c s tokenInId tokenOutId tokenOutAmount = some v →
      maxTokenInAmount < v →
      XYK.buy c sender s tokenInId tokenOutId tokenOutAmount maxTokenInAmount =
        ExecResult.err (XYKError.assertionFailed (some errors.tokenInAmountTooHigh)) s) := by
  constructor
  · intro amtIn minOut hs
    simp [XYK.sell, hpool, hs]
  · intro amtOut maxIn v hv hslip
    simp [XYK.buy, hpool, hv, hslip]

/-- Concrete crypto fixture: LP token id 99, pool key (7, 7). -/
def cryptoFix : Crypto := ⟨fun _ => 99, fun _ => (7, 7)⟩

/-- Concrete caller account. -/
def senderFix : Address := (1, 2)

/-- Concrete pre-creation state: no pools; the caller holds 100 of token 0
and 200 of token 1. -/
def stateFix : XYKState :=
  ⟨fun _ => none,
    fun k => if k = (0, (1, 2)) then 100 else if k = (1, (1, 2)) then 200 else 0⟩

/-- The state carried by an execution result. -/
def extractState : ExecResult → XYKState
  | ExecResult.ok s => s
  | ExecResult.err _ s => s

/-- The state after the fixture's successful pool creation. -/
def createdStateFix : XYKState :=
  extractState (XYK.createPool cryptoFix senderFix stateFix 0 1 10 20)

/-- Witness for C5 on the concrete fixture. -/
theorem createPool_success_effects_witness :
    createdStateFix.pools (PoolKey.fromTokenIdPair cryptoFix 0 1) = some XYK.defaultPoolValue ∧
    getBalance createdStateFix 0 senderFix + 10 = getBalance stateFix 0 senderFix ∧
    getBalance createdStateFix 0 (PoolKey.fromTokenIdPair cryptoFix 0 1) =
      getBalance stateFix 0 (PoolKey.fromTokenIdPair cryptoFix 0 1) + 10 ∧
    getBalance createdStateFix 1 senderFix + 20 = getBalance stateFix 1 senderFix ∧
    getBalance createdStateFix 1 (PoolKey.fromTokenIdPair cryptoFix 0 1) =
      getBalance stateFix 1 (PoolKey.fromTokenIdPair cryptoFix 0 1) + 20 ∧
    getBalance createdStateFix (LPTokenId.fromTokenIdPair cryptoFix 0 1) senderFix =
      getBalance stateFix (LPTokenId.fromTokenIdPair cryptoFix 0 1) senderFix + 10 :=
  createPool_success_effects cryptoFix senderFix stateFix 0 1 10 20 createdStateFix rfl
    (by decide) (by decide) (by decide)

/-- Witness for C6 on the concrete fixture. -/
theorem createPool_identical_and_duplicate_witness :
    XYK.createPool cryptoFix senderFix stateFix 5 5 1 1 =
      ExecResult.err (XYKError.assertionFailed (some errors.tokensMatch)) stateFix ∧
    XYK.createPool cryptoFix senderFix createdStateFix 0 1 1 1 =
      ExecResult.err (XYKError.assertionFailed (some errors.poolExists)) createdStateFix ∧
    XYK.createPool cryptoFix senderFix createdStateFix 1 0 1 1 =
      ExecResult.err (XYKError.assertionFailed (some errors.poolExists)) createdStateFix :=
  ⟨(createPool_identical_and_duplicate cryptoFix).1 senderFix stateFix 5 1 1,
    ((createPool_identical_and_duplicate cryptoFix).2 senderFix stateFix 0 1 10 20
      createdStateFix rfl senderFix 1 1).1,
    ((createPool_identical_and_duplicate cryptoFix).2 senderFix stateFix 0 1 10 20
      createdStateFix rfl senderFix 1 1).2⟩

/-- Witness for C8 on the concrete fixture (reserves 10/20: selling 5
yields 6 < 7; buying 5 costs 3 > 2). -/
theorem slippage_failure_keeps_state_witness :
    XYK.sell cryptoFix senderFix createdStateFix 0 1 5 7 =
      ExecResult.err (XYKError.assertionFailed (some errors.tokenOutAmountTooLow))
        createdStateFix ∧
    XYK.buy cryptoFix senderFix createdStateFix 0 1 5 2 =
      ExecResult.err (XYKError.assertionFailed (some errors.tokenInAmountTooHigh))
        createdStateFix :=
  ⟨(slippage_failure_keeps_state cryptoFix senderFix createdStateFix 0 1 (by decide)).1
      5 7 (by decide),
    (slippage_failure_keeps_state cryptoFix senderFix createdStateFix 0 1 (by decide)).2
      5 2 3 (by decide) (by decide)⟩
